import Mathlib

/-!
Shallow embedding of the Soroban-Perps contract (`contracts/src/lib.rs`) and
verification of the specification's claims about it.

Modelling conventions:
* `i128` is modelled as unbounded `Int`; Rust's `/` on `i128` truncates toward
  zero, which is `Int.tdiv` here.  A Rust division panics when the divisor is
  zero; those spots are embedded as an explicit `Err.divByZero` result.
* Soroban `Address` values (and the asset `String`, which the contract never
  inspects) are modelled as opaque `Nat` identifiers.
* Instance/persistent storage slots are `Option` fields of `ContractState`:
  `none` means the key was never written.  A Rust `unwrap()` on a missing slot
  is a generic panic, embedded as `Err.unwrapPanic`; `unwrap_or(d)` is `getD d`.
* A Soroban panic aborts the invocation and reverts every pending write, so a
  failing call is embedded as `Except.error e` carrying no state and no token
  transfers; a successful call returns the new state together with the list of
  token-client transfers it issued.  `require_auth` and event publication are
  host collaborators with no effect on the contract state and are not modelled.
-/

namespace Perps

/-- Mirrors `ContractError` from `lib.rs`. -/
inductive ContractError where
  | PositionOpen
  | PositionNotOpen
  | ZeroValue
  | AboveMargin
deriving DecidableEq

/-- How an invocation can abort: with a tagged contract error
(Soroban `panic_with_error`), with a generic `Option::unwrap` panic, or with a
Rust division-by-zero panic. -/
inductive Err where
  | contractErr : ContractError → Err
  | unwrapPanic : Err
  | divByZero : Err
deriving DecidableEq

/-- Mirrors the `Position` struct from `lib.rs`. -/
structure Position where
  value : Int
  open_price : Int
  close_price : Int
  long : Bool
deriving DecidableEq

/-- A call the contract makes on the external pUSD token client. -/
inductive TokenOp where
  | transferFrom : Nat → Nat → Nat → Int → TokenOp
  | transfer : Nat → Nat → Int → TokenOp
deriving DecidableEq

/-- The contract's storage (instance slots, the persistent positions map) plus
its own address.  Each storage slot is `none` until first written. -/
structure ContractState where
  price : Option Int
  asset : Option Nat
  leverage : Option Int
  p_usd : Option Nat
  oracles : Option (List (Nat × Bool))
  total_long : Option Int
  total_short : Option Int
  margin_req : Option Int
  history : Option (List Position)
  positions : Option (List (Nat × Position))
  selfAddr : Nat
deriving DecidableEq

/-- Lookup in an association-list model of a Soroban `Map`. -/
def mapGet {α : Type} : List (Nat × α) → Nat → Option α
  | [], _ => none
  | (k', v) :: rest, k => if k' = k then some v else mapGet rest k

/-- Insert-or-overwrite in an association-list model of a Soroban `Map`. -/
def mapSet {α : Type} : List (Nat × α) → Nat → α → List (Nat × α)
  | [], k, v => [(k, v)]
  | (k', v') :: rest, k, v =>
    if k' = k then (k, v) :: rest else (k', v') :: mapSet rest k v

/-- Key removal in an association-list model of a Soroban `Map`. -/
def mapRemove {α : Type} : List (Nat × α) → Nat → List (Nat × α)
  | [], _ => []
  | (k', v') :: rest, k =>
    if k' = k then rest else (k', v') :: mapRemove rest k

/-- Embeds `PerpContract::initialize` (named `initStorage` here).  It writes
the configuration slots unconditionally; it touches neither `PRICE` nor the
persistent positions map, and performs no already-written check. -/
def initStorage (st : ContractState) (asset : Nat) (leverage : Int)
    (p_usd oracle : Nat) : ContractState :=
  { st with
    asset := some asset
    leverage := some leverage
    p_usd := some p_usd
    oracles := some (mapSet ([] : List (Nat × Bool)) oracle true)
    margin_req := some 300
    total_long := some 0
    total_short := some 0
    history := some ([] : List Position) }

/-- Embeds `PerpContract::calculate_fee`. -/
def calculate_fee (st : ContractState) (value : Int) (long : Bool) : Int :=
  let total_long := st.total_long.getD 0
  let total_short := st.total_short.getD 0
  let fee : Int := 0
  let fee := if total_long > total_short ∧ long = true then value.tdiv 100 else fee
  let fee := if total_short > total_long ∧ long = false then value.tdiv 100 else fee
  fee

/-- Embeds `PerpContract::calculate_position`.  The source computes
`(leverage * position.value) / position.open_price` unconditionally once a
position exists, so a stored `open_price` of `0` is a division-by-zero panic;
a missing `LEVERAGE` slot is an `unwrap` panic. -/
def calculate_position (st : ContractState) (user : Nat) : Except Err Int :=
  let positions := st.positions.getD []
  match mapGet positions user with
  | none => Except.ok 0
  | some position =>
    let price := st.price.getD 0
    let gain : Int :=
      if position.long then
        if price > position.open_price then price - position.open_price else 0
      else
        if price < position.open_price then position.open_price - price else 0
    let loss : Int :=
      if position.long then
        if price > position.open_price then 0 else position.open_price - price
      else
        if price < position.open_price then 0 else price - position.open_price
    match st.leverage with
    | none => Except.error Err.unwrapPanic
    | some leverage =>
      if position.open_price = 0 then Except.error Err.divByZero
      else
        let multiplier := (leverage * position.value).tdiv position.open_price
        if gain > 0 then Except.ok (position.value + gain * multiplier)
        else if loss > 0 then
          if loss * leverage > position.value then Except.ok 0
          else Except.ok (position.value - loss * multiplier)
        else Except.ok position.value

/-- Embeds `PerpContract::place_trade`.  The zero-value check precedes every
storage `unwrap` and the token pull; on success the call issues exactly one
`transfer_from` moving `value` from the trader into the contract. -/
def place_trade (st : ContractState) (trader : Nat) (value : Int) (long : Bool) :
    Except Err (ContractState × List TokenOp) :=
  let positions := st.positions.getD []
  if value ≤ 0 then Except.error (Err.contractErr ContractError.ZeroValue)
  else
    match st.p_usd with
    | none => Except.error Err.unwrapPanic
    | some _ =>
      let fee := calculate_fee st value long
      let remaining := value - fee
      match st.total_long, st.total_short with
      | some total_long, some total_short =>
        let st1 :=
          if long then { st with total_long := some (total_long + remaining) }
          else { st with total_short := some (total_short + remaining) }
        let price := st.price.getD 0
        let position : Position :=
          { value := remaining, open_price := price, close_price := 0, long := long }
        let st2 := { st1 with positions := some (mapSet positions trader position) }
        Except.ok (st2, [TokenOp.transferFrom st.selfAddr trader st.selfAddr value])
      | _, _ => Except.error Err.unwrapPanic

/-- Embeds `PerpContract::close_trade`.  Note the asymmetry in the source: a
wholly missing positions map is `panic_with_error(PositionNotOpen)`, while a
present map without the trader's key hits a bare `unwrap()`. -/
def close_trade (st : ContractState) (trader : Nat) :
    Except Err (ContractState × List TokenOp) :=
  match st.positions with
  | none => Except.error (Err.contractErr ContractError.PositionNotOpen)
  | some positions =>
    match mapGet positions trader with
    | none => Except.error Err.unwrapPanic
    | some position =>
      match calculate_position st trader with
      | Except.error e => Except.error e
      | Except.ok ret_bal =>
        match st.history with
        | none => Except.error Err.unwrapPanic
        | some history =>
          let closed := { position with close_price := st.price.getD 0 }
          match st.total_long, st.total_short with
          | some total_long, some total_short =>
            let st1 := { st with history := some (history ++ [closed]) }
            let st2 :=
              if position.long then
                { st1 with total_long := some (total_long - position.value) }
              else
                { st1 with total_short := some (total_short - position.value) }
            let st3 := { st2 with positions := some (mapRemove positions trader) }
            match st.p_usd with
            | none => Except.error Err.unwrapPanic
            | some _ =>
              Except.ok (st3, [TokenOp.transfer st.selfAddr trader ret_bal])
          | _, _ => Except.error Err.unwrapPanic

/-- Embeds `PerpContract::liquidate_position`.  The margin ratio divides by
`position.value` (a division-by-zero panic if that is `0`), and the reward
transfer is issued only when `reward > 0`. -/
def liquidate_position (st : ContractState) (liquidator user : Nat) :
    Except Err (ContractState × List TokenOp) :=
  match st.positions with
  | none => Except.error (Err.contractErr ContractError.PositionNotOpen)
  | some positions =>
    match mapGet positions user with
    | none => Except.error Err.unwrapPanic
    | some position =>
      match calculate_position st user with
      | Except.error e => Except.error e
      | Except.ok ret_bal =>
        match st.margin_req with
        | none => Except.error Err.unwrapPanic
        | some margin_req =>
          if position.value = 0 then Except.error Err.divByZero
          else
            let margin := (ret_bal * 10000).tdiv position.value
            if margin ≥ margin_req then
              Except.error (Err.contractErr ContractError.AboveMargin)
            else
              match st.history with
              | none => Except.error Err.unwrapPanic
              | some history =>
                let closed := { position with close_price := st.price.getD 0 }
                match st.total_long, st.total_short with
                | some total_long, some total_short =>
                  let st1 := { st with history := some (history ++ [closed]) }
                  let st2 :=
                    if position.long then
                      { st1 with total_long := some (total_long - position.value) }
                    else
                      { st1 with total_short := some (total_short - position.value) }
                  let st3 := { st2 with positions := some (mapRemove positions user) }
                  let reward := ret_bal.tdiv 3
                  if reward > 0 then
                    match st.p_usd with
                    | none => Except.error Err.unwrapPanic
                    | some _ =>
                      Except.ok (st3, [TokenOp.transfer st.selfAddr liquidator reward])
                  else Except.ok (st3, [])
                | _, _ => Except.error Err.unwrapPanic

/-- Modelled from the spec's words (PnLEngine.settle, spec section 4.3 and
claim C1): the settlement value of a stored position at price `p` under the
configured leverage, with the spec's truncating integer division. -/
def settleSpec (value openPrice : Int) (long : Bool) (p leverage : Int) : Int :=
  let gain : Int :=
    if long then (if p > openPrice then p - openPrice else 0)
    else (if p < openPrice then openPrice - p else 0)
  let loss : Int :=
    if long then (if p > openPrice then 0 else openPrice - p)
    else (if p < openPrice then 0 else p - openPrice)
  let multiplier := (leverage * value).tdiv openPrice
  if gain > 0 then value + gain * multiplier
  else if loss > 0 then
    if loss * leverage > value then 0 else value - loss * multiplier
  else value

/-- A state in which no storage slot has ever been written. -/
def emptyState : ContractState :=
  { price := none
    asset := none
    leverage := none
    p_usd := none
    oracles := none
    total_long := none
    total_short := none
    margin_req := none
    history := none
    positions := none
    selfAddr := 0 }

/-- Sum of `value` over the stored positions on one side of the market. -/
def sumSideValues (lg : Bool) (ps : List (Nat × Position)) : Int :=
  List.foldl (fun acc e => acc + (if e.2.long = lg then e.2.value else 0)) 0 ps

/-- Extracts the post-state of a successful invocation, with a fallback for
failed ones. -/
def stateAfter (r : Except Err (ContractState × List TokenOp))
    (dflt : ContractState) : ContractState :=
  match r with
  | Except.ok p => p.1
  | Except.error _ => dflt

-- Shared helper lemmas ------------------------------------------------------

theorem mapGet_mapSet_self {α : Type} (m : List (Nat × α)) (k : Nat) (v : α) :
    mapGet (mapSet m k v) k = some v := by
  induction m with
  | nil => simp [mapSet, mapGet]
  | cons e rest ih =>
    by_cases h : e.1 = k <;> simp [mapSet, mapGet, h, ih]

theorem calculate_position_eq_spec (st : ContractState) (user : Nat)
    (pos : Position) (L : Int)
    (hget : mapGet (st.positions.getD []) user = some pos)
    (hlev : st.leverage = some L) (hop : pos.open_price ≠ 0) :
    calculate_position st user =
      Except.ok (settleSpec pos.value pos.open_price pos.long (st.price.getD 0) L) := by
  simp only [calculate_position, settleSpec, hget, hlev, hop, if_false, ite_false]
  split_ifs <;> rfl

-- Claim C1 ------------------------------------------------------------------

/-- C1: `calculate_position(trader)` returns `0` when the trader has no stored
position; otherwise, with stored position `(value, open_price, long)`, current
oracle price `p` and configured leverage `L`, it computes gain/loss by
direction, `multiplier = (L * value) tdiv open_price`, and returns
`value + gain * multiplier` when `gain > 0`; `0` when `loss > 0` and
`loss * L > value`; `value - loss * multiplier` when `loss > 0` and
`loss * L ≤ value`; and `value` unchanged when `gain = loss = 0` — exactly the
computation `settleSpec` transcribed from the claim's words.  The division is
the source's truncating one; the formula requires `open_price ≠ 0` (a stored
zero open price is a division-by-zero panic, spec section 9). -/
theorem C1_settlement_formula (st : ContractState) (user : Nat) :
    (mapGet (st.positions.getD []) user = none →
      calculate_position st user = Except.ok 0) ∧
    (∀ pos L, mapGet (st.positions.getD []) user = some pos →
      st.leverage = some L → pos.open_price ≠ 0 →
      calculate_position st user =
        Except.ok (settleSpec pos.value pos.open_price pos.long (st.price.getD 0) L)) := by
  constructor
  · intro h
    simp [calculate_position, h]
  · intro pos L hget hlev hop
    exact calculate_position_eq_spec st user pos L hget hlev hop

/-- A concrete state exercising the profitable-long settlement path. -/
def stDemo : ContractState :=
  { price := some 55000
    asset := some 1
    leverage := some 10
    p_usd := some 5
    oracles := some [(6, true)]
    total_long := some 100000
    total_short := some 0
    margin_req := some 300
    history := some []
    positions := some [(1, { value := 100000, open_price := 50000, close_price := 0, long := true })]
    selfAddr := 0 }

theorem C1_settlement_formula_witness :
    calculate_position stDemo 1 = Except.ok (settleSpec 100000 50000 true 55000 10) ∧
    settleSpec 100000 50000 true 55000 10 = 200000 := by
  constructor
  · exact (C1_settlement_formula stDemo 1).2
      { value := 100000, open_price := 50000, close_price := 0, long := true } 10
      rfl rfl (by decide)
  · rfl

-- Claim C4 ------------------------------------------------------------------

/-- C4: `calculate_fee` returns `value tdiv 100` (truncated toward zero)
exactly when the trade's side already has strictly greater aggregate notional
than the opposite side (long with `total_long > total_short`, short with
`total_short > total_long`), and `0` in every other case, including a balanced
market; it reads the two totals and mutates nothing (it is a pure function of
the state by construction). -/
theorem C4_fee_rule (st : ContractState) (value : Int) (long : Bool) :
    calculate_fee st value long =
      if (long = true ∧ st.total_long.getD 0 > st.total_short.getD 0) ∨
         (long = false ∧ st.total_short.getD 0 > st.total_long.getD 0) then
        value.tdiv 100
      else 0 := by
  cases long <;> simp only [calculate_fee] <;> split_ifs <;> simp_all <;> omega

-- Claim C8 ------------------------------------------------------------------

/-- C8: `place_trade` with a requested value `≤ 0` fails with `ZeroValue`.
The failing invocation returns no successor state and no token operation: the
guard precedes the token pull in the source, and a Soroban panic reverts the
invocation wholesale, so positions, totals and history are untouched and no
transfer is initiated. -/
theorem C8_zero_value_guard (st : ContractState) (trader : Nat) (v : Int)
    (long : Bool) (hv : v ≤ 0) :
    place_trade st trader v long =
      Except.error (Err.contractErr ContractError.ZeroValue) := by
  simp [place_trade, hv]

theorem C8_zero_value_guard_witness :
    place_trade emptyState 1 0 true =
      Except.error (Err.contractErr ContractError.ZeroValue) :=
  C8_zero_value_guard emptyState 1 0 true (by decide)

-- Claim C10 -----------------------------------------------------------------

/-- C10: `initStorage` (the contract's `initialize`) performs no
already-written check: called on any state — in particular one that already
holds open positions — it unconditionally overwrites the asset, leverage,
settlement token and oracle set, resets `margin_req` to `300`, both totals to
`0` and the history to the empty sequence, while leaving the persistent
positions map (and the stored price) unchanged. -/
theorem C10_init_overwrites_config_keeps_positions (st : ContractState)
    (a : Nat) (lev : Int) (pu orc : Nat) :
    (initStorage st a lev pu orc).asset = some a ∧
    (initStorage st a lev pu orc).leverage = some lev ∧
    (initStorage st a lev pu orc).p_usd = some pu ∧
    (initStorage st a lev pu orc).oracles = some [(orc, true)] ∧
    (initStorage st a lev pu orc).margin_req = some 300 ∧
    (initStorage st a lev pu orc).total_long = some 0 ∧
    (initStorage st a lev pu orc).total_short = some 0 ∧
    (initStorage st a lev pu orc).history = some [] ∧
    (initStorage st a lev pu orc).positions = st.positions ∧
    (initStorage st a lev pu orc).price = st.price :=
  ⟨rfl, rfl, rfl, rfl, rfl, rfl, rfl, rfl, rfl, rfl⟩

-- Claim C3 ------------------------------------------------------------------

/-- A state whose positions map exists but holds only trader `2`. -/
def stOther : ContractState :=
  { emptyState with
    positions := some [(2, { value := 100, open_price := 50000, close_price := 0, long := true })] }

/-- C3 counterexample: the claim says close/liquidate on a trader with no
stored position fails with `PositionNotOpen` even when the positions map
exists without that key.  In that situation the source instead hits a bare
`Option::unwrap`, a generic panic distinct from `PositionNotOpen`. -/
theorem C3_missing_key_is_generic_panic :
    close_trade stOther 1 = Except.error Err.unwrapPanic ∧
    liquidate_position stOther 3 1 = Except.error Err.unwrapPanic ∧
    Err.unwrapPanic ≠ Err.contractErr ContractError.PositionNotOpen :=
  ⟨rfl, rfl, by decide⟩

/-- C3 amended: close/liquidate on a trader with no open position always
fails, but the error is `PositionNotOpen` only when no positions map was ever
stored; when the map exists and merely lacks the key, the call aborts with a
generic unwrap panic instead. -/
theorem C3_position_not_open_errors (st : ContractState) (trader liq : Nat) :
    (st.positions = none →
      close_trade st trader =
        Except.error (Err.contractErr ContractError.PositionNotOpen) ∧
      liquidate_position st liq trader =
        Except.error (Err.contractErr ContractError.PositionNotOpen)) ∧
    (∀ ps, st.positions = some ps → mapGet ps trader = none →
      close_trade st trader = Except.error Err.unwrapPanic ∧
      liquidate_position st liq trader = Except.error Err.unwrapPanic) := by
  constructor
  · intro h
    exact ⟨by simp [close_trade, h], by simp [liquidate_position, h]⟩
  · intro ps hps hget
    exact ⟨by simp [close_trade, hps, hget], by simp [liquidate_position, hps, hget]⟩

theorem C3_position_not_open_errors_witness :
    close_trade emptyState 1 =
      Except.error (Err.contractErr ContractError.PositionNotOpen) ∧
    close_trade stOther 1 = Except.error Err.unwrapPanic :=
  ⟨((C3_position_not_open_errors emptyState 1 3).1 rfl).1,
   ((C3_position_not_open_errors stOther 1 3).2
      [(2, { value := 100, open_price := 50000, close_price := 0, long := true })] rfl rfl).1⟩

-- Claim C2 ------------------------------------------------------------------

/-- The freshly configured state of the C2 scenario. -/
def st0C2 : ContractState := initStorage emptyState 1 10 5 6

/-- State after trader `1` opens a long of `100` in the fresh market. -/
def st1C2 : ContractState := stateAfter (place_trade st0C2 1 100 true) emptyState

/-- State after trader `1` re-opens a long of `100` while already holding a
position. -/
def st2C2 : ContractState := stateAfter (place_trade st1C2 1 100 true) emptyState

/-- C2: the claimed invariant `total_long = Σ value over stored long
positions` is broken by the code on a re-open.  After configuration, trader
`1` opens a long of `100` (fee `0`, stored value `100`, `total_long = 100`)
and then re-opens a long of `100` (fee `1`, the stored position is overwritten
with value `99`, but `total_long` is only incremented, to `199`).  The sum of
stored long values is `99 ≠ 199`.  The source's own
`2do check user doesn't already have a postion` comment and its defined but
never-raised `PositionOpen` error mark the missing duplicate-open guard as a
slip, so this is a bug in the code rather than in the claim. -/
theorem C2_totals_out_of_sync_on_reopen :
    place_trade st0C2 1 100 true =
      Except.ok (st1C2, [TokenOp.transferFrom 0 1 0 100]) ∧
    place_trade st1C2 1 100 true =
      Except.ok (st2C2, [TokenOp.transferFrom 0 1 0 100]) ∧
    st2C2.total_long = some 199 ∧
    sumSideValues true (st2C2.positions.getD []) = 99 ∧
    (199 : Int) ≠ 99 :=
  ⟨rfl, rfl, rfl, rfl, by decide⟩

-- Helper lemmas: no operation ever signals `PositionOpen` ------------------

theorem calculate_position_not_contractErr (st : ContractState) (u : Nat)
    (e : ContractError) :
    calculate_position st u ≠ Except.error (Err.contractErr e) := by
  intro h
  simp only [calculate_position] at h
  repeat' split at h
  all_goals simp at h

theorem place_trade_not_PositionOpen (st : ContractState) (t : Nat) (v : Int)
    (l : Bool) :
    place_trade st t v l ≠ Except.error (Err.contractErr ContractError.PositionOpen) := by
  intro h
  simp only [place_trade] at h
  repeat' split at h
  all_goals simp at h

theorem close_trade_not_PositionOpen (st : ContractState) (t : Nat) :
    close_trade st t ≠ Except.error (Err.contractErr ContractError.PositionOpen) := by
  intro h
  simp only [close_trade] at h
  repeat' split at h
  all_goals simp at h
  all_goals
    subst h
    exact calculate_position_not_contractErr st t _ (by assumption)

theorem liquidate_position_not_PositionOpen (st : ContractState) (liq u : Nat) :
    liquidate_position st liq u ≠ Except.error (Err.contractErr ContractError.PositionOpen) := by
  intro h
  simp only [liquidate_position] at h
  repeat' split at h
  all_goals simp at h
  all_goals
    subst h
    exact calculate_position_not_contractErr st u _ (by assumption)

-- Claim C6 ------------------------------------------------------------------

/-- C6: with `v > 0` (and the configuration slots present, as left by the
contract's initialization), `place_trade` computes `fee = calculate_fee`,
sets `remaining = v - fee`, increments exactly the matching total by
`remaining` — never by `v` — pulls `v` from the trader, and stores
`Position { value := remaining, open_price := current price, close_price := 0,
long }` under the trader, unconditionally overwriting any pre-existing entry
(the stored value under the key afterwards is the new position, whatever the
map held before).  Moreover no operation of the contract ever signals the
`PositionOpen` error. -/
theorem C6_place_trade_rule (st : ContractState) (trader : Nat) (v : Int)
    (long : Bool) (tl ts : Int) (pu : Nat)
    (hv : 0 < v) (hpu : st.p_usd = some pu)
    (htl : st.total_long = some tl) (hts : st.total_short = some ts) :
    place_trade st trader v long =
      Except.ok
        ({ st with
            total_long := some (if long then tl + (v - calculate_fee st v long) else tl)
            total_short := some (if long then ts else ts + (v - calculate_fee st v long))
            positions := some (mapSet (st.positions.getD []) trader
              { value := v - calculate_fee st v long
                open_price := st.price.getD 0
                close_price := 0
                long := long }) },
          [TokenOp.transferFrom st.selfAddr trader st.selfAddr v]) ∧
    mapGet (mapSet (st.positions.getD []) trader
        { value := v - calculate_fee st v long
          open_price := st.price.getD 0
          close_price := 0
          long := long }) trader =
      some { value := v - calculate_fee st v long
             open_price := st.price.getD 0
             close_price := 0
             long := long } ∧
    (∀ st' t' v' l', place_trade st' t' v' l' ≠
      Except.error (Err.contractErr ContractError.PositionOpen)) ∧
    (∀ st' t', close_trade st' t' ≠
      Except.error (Err.contractErr ContractError.PositionOpen)) ∧
    (∀ st' l' u', liquidate_position st' l' u' ≠
      Except.error (Err.contractErr ContractError.PositionOpen)) ∧
    (∀ st' u', calculate_position st' u' ≠
      Except.error (Err.contractErr ContractError.PositionOpen)) := by
  have hv' : ¬ v ≤ 0 := not_le.mpr hv
  refine ⟨?_, mapGet_mapSet_self _ _ _,
    fun st' t' v' l' => place_trade_not_PositionOpen st' t' v' l',
    fun st' t' => close_trade_not_PositionOpen st' t',
    fun st' l' u' => liquidate_position_not_PositionOpen st' l' u',
    fun st' u' => calculate_position_not_contractErr st' u' ContractError.PositionOpen⟩
  cases long <;> simp [place_trade, hpu, htl, hts, hv']

theorem C6_place_trade_rule_witness :
    place_trade st0C2 1 100 true =
      Except.ok (st1C2, [TokenOp.transferFrom 0 1 0 100]) := by
  have h := C6_place_trade_rule st0C2 1 100 true 0 0 5 (by decide) rfl rfl rfl
  exact h.1.trans (by rfl)

-- Claim C7 ------------------------------------------------------------------

/-- C7: for a trader with an open position of original value `V = pos.value`
(in a state whose other slots are present, as initialization leaves them),
`close_trade` appends exactly one record to the history — a copy of the
position with `close_price` set to the current oracle price — decrements
`total_long` (long) or `total_short` (short) by `V` and not by the settlement
value, removes the position from the positions map, and pays the settlement
value `settle` (as computed by `calculate_position` before removal) to the
trader via the token client. -/
theorem C7_close_trade_rule (st : ContractState) (trader : Nat)
    (ps : List (Nat × Position)) (pos : Position) (settle tl ts : Int)
    (hist : List Position) (pu : Nat)
    (hps : st.positions = some ps) (hget : mapGet ps trader = some pos)
    (hsettle : calculate_position st trader = Except.ok settle)
    (htl : st.total_long = some tl) (hts : st.total_short = some ts)
    (hh : st.history = some hist) (hpu : st.p_usd = some pu) :
    close_trade st trader =
      Except.ok
        ({ st with
            history := some (hist ++ [{ pos with close_price := st.price.getD 0 }])
            total_long := some (if pos.long then tl - pos.value else tl)
            total_short := some (if pos.long then ts else ts - pos.value)
            positions := some (mapRemove ps trader) },
          [TokenOp.transfer st.selfAddr trader settle]) := by
  cases hpl : pos.long <;>
    simp [close_trade, hps, hget, hsettle, htl, hts, hh, hpu, hpl]

theorem C7_close_trade_rule_witness :
    close_trade stDemo 1 =
      Except.ok
        ({ stDemo with
            history := some [{ value := 100000, open_price := 50000, close_price := 55000, long := true }]
            total_long := some 0
            positions := some ([] : List (Nat × Position)) },
          [TokenOp.transfer 0 1 200000]) := by
  have h := C7_close_trade_rule stDemo 1
      [(1, { value := 100000, open_price := 50000, close_price := 0, long := true })]
      { value := 100000, open_price := 50000, close_price := 0, long := true }
      200000 100000 0 [] 5 rfl rfl rfl rfl rfl rfl rfl
  exact h.trans (by rfl)

-- Claim C5 ------------------------------------------------------------------

/-- C5: for a target with an open position of original value `pos.value` and
settlement value `settle`, `liquidate_position` fails with `AboveMargin`
exactly when `(settle * 10000) tdiv pos.value ≥ margin_req` — and a failing
invocation returns no successor state, so positions, totals and history are
untouched — while otherwise it performs the same bookkeeping as close
(archive with the close price, decrement the matching total by `pos.value`,
remove the position) and issues a transfer of `settle tdiv 3` to the
liquidator exactly when that amount is strictly positive, transferring
nothing to the original trader. -/
theorem C5_liquidation_rule (st : ContractState) (liq user : Nat)
    (ps : List (Nat × Position)) (pos : Position) (settle mr tl ts : Int)
    (hist : List Position) (pu : Nat)
    (hps : st.positions = some ps) (hget : mapGet ps user = some pos)
    (hsettle : calculate_position st user = Except.ok settle)
    (hmr : st.margin_req = some mr) (hV : pos.value ≠ 0)
    (htl : st.total_long = some tl) (hts : st.total_short = some ts)
    (hh : st.history = some hist) (hpu : st.p_usd = some pu) :
    if (settle * 10000).tdiv pos.value ≥ mr then
      liquidate_position st liq user =
        Except.error (Err.contractErr ContractError.AboveMargin)
    else
      liquidate_position st liq user =
        Except.ok
          ({ st with
              history := some (hist ++ [{ pos with close_price := st.price.getD 0 }])
              total_long := some (if pos.long then tl - pos.value else tl)
              total_short := some (if pos.long then ts else ts - pos.value)
              positions := some (mapRemove ps user) },
            if settle.tdiv 3 > 0 then
              [TokenOp.transfer st.selfAddr liq (settle.tdiv 3)]
            else []) := by
  by_cases hm : (settle * 10000).tdiv pos.value ≥ mr
  · rw [if_pos hm]
    simp [liquidate_position, hps, hget, hsettle, hmr, hV, hm]
  · rw [if_neg hm]
    by_cases hr : settle.tdiv 3 > 0 <;> cases hpl : pos.long <;>
      simp [liquidate_position, hps, hget, hsettle, hmr, hV, hm, hr, hpl, hh,
        htl, hts, hpu]

/-- A state holding a long that is wiped out at the current price. -/
def stWipe : ContractState :=
  { emptyState with
    price := some 45000
    leverage := some 10
    p_usd := some 5
    total_long := some 1000
    total_short := some 0
    margin_req := some 300
    history := some []
    positions := some [(1, { value := 1000, open_price := 50000, close_price := 0, long := true })] }

theorem C5_liquidation_rule_witness :
    liquidate_position stWipe 2 1 =
      Except.ok
        ({ stWipe with
            history := some [{ value := 1000, open_price := 50000, close_price := 45000, long := true }]
            total_long := some 0
            positions := some ([] : List (Nat × Position)) },
          ([] : List TokenOp)) := by
  have h := C5_liquidation_rule stWipe 2 1
      [(1, { value := 1000, open_price := 50000, close_price := 0, long := true })]
      { value := 1000, open_price := 50000, close_price := 0, long := true }
      0 300 1000 0 [] 5 rfl rfl rfl rfl (by decide) rfl rfl rfl rfl
  rw [if_neg (by decide)] at h
  exact h.trans (by rfl)

-- Claim C9 ------------------------------------------------------------------

/-- A short stored at `open_price = 1` with collateral `100`: at price `3`
the loss passes the wipe-out guard but the leveraged multiplier makes the
settlement negative. -/
def stNeg : ContractState :=
  { emptyState with
    price := some 3
    leverage := some 1
    positions := some [(1, { value := 100, open_price := 1, close_price := 0, long := false })] }

/-- C9 counterexample: the claim asserts that with `value > 0`,
`open_price > 0` and `leverage > 0` every settlement is nonnegative.  In
`stNeg` the stored short has `value = 100 > 0`, `open_price = 1 > 0`,
`leverage = 1 > 0`, yet at price `3` the loss is `2`, the wipe-out guard
`loss * leverage > value` does not fire (`2 ≤ 100`), the multiplier is
`(1 * 100) tdiv 1 = 100`, and the settlement is `100 - 2 * 100 = -100 < 0`. -/
theorem C9_settlement_negative_counterexample :
    (0 : Int) < 100 ∧ (0 : Int) < 1 ∧
    mapGet (stNeg.positions.getD []) 1 =
      some { value := 100, open_price := 1, close_price := 0, long := false } ∧
    stNeg.leverage = some 1 ∧
    calculate_position stNeg 1 = Except.ok (-100) ∧
    ¬ (0 : Int) ≤ -100 :=
  ⟨by decide, by decide, rfl, rfl, rfl, by decide⟩

theorem settle_branches_nonneg (value op L g l : Int)
    (hv : 0 < value) (hop : 0 < op) (hL : 0 < L) (hvo : value ≤ op)
    (hg0 : 0 ≤ g) (hl0 : 0 ≤ l) :
    0 ≤ (if g > 0 then value + g * ((L * value).tdiv op)
         else if l > 0 then
           (if l * L > value then 0 else value - l * ((L * value).tdiv op))
         else value) := by
  have hM0 : 0 ≤ (L * value).tdiv op :=
    Int.tdiv_nonneg (mul_nonneg hL.le hv.le) hop.le
  have hML : (L * value).tdiv op ≤ L := by
    rw [Int.tdiv_eq_ediv (mul_nonneg hL.le hv.le) hop.le]
    have h2 : L * value / op ≤ L * op / op :=
      Int.ediv_le_ediv hop (mul_le_mul_of_nonneg_left hvo hL.le)
    rwa [Int.mul_ediv_cancel L (ne_of_gt hop)] at h2
  split_ifs with hg hl hw
  · have hgM := mul_nonneg hg0 hM0
    linarith
  · linarith
  · have h4 := mul_le_mul_of_nonneg_left hML hl0
    have h5 := not_lt.mp hw
    linarith
  · linarith

theorem settleSpec_nonneg (value op p L : Int) (lg : Bool)
    (hv : 0 < value) (hop : 0 < op) (hL : 0 < L) (hvo : value ≤ op) :
    0 ≤ settleSpec value op lg p L := by
  simp only [settleSpec]
  refine settle_branches_nonneg value op L _ _ hv hop hL hvo ?_ ?_
  · split_ifs <;> omega
  · split_ifs <;> omega

/-- C9 (amended): the unqualified nonnegativity claim is false (see the
counterexample); it becomes true under the additional hypothesis
`value ≤ open_price`, which bounds the multiplier by the leverage so that the
surviving loss branch satisfies
`loss * multiplier ≤ loss * leverage ≤ value`. -/
theorem C9_settlement_nonneg (st : ContractState) (user : Nat) (pos : Position)
    (L settle : Int)
    (hget : mapGet (st.positions.getD []) user = some pos)
    (hlev : st.leverage = some L)
    (hv : 0 < pos.value) (hop : 0 < pos.open_price) (hL : 0 < L)
    (hvo : pos.value ≤ pos.open_price)
    (hres : calculate_position st user = Except.ok settle) :
    0 ≤ settle := by
  have h := calculate_position_eq_spec st user pos L hget hlev (ne_of_gt hop)
  rw [hres] at h
  injection h with h2
  rw [h2]
  exact settleSpec_nonneg pos.value pos.open_price (st.price.getD 0) L pos.long
    hv hop hL hvo

theorem C9_settlement_nonneg_witness :
    calculate_position stWipe 1 = Except.ok 0 ∧ (0 : Int) ≤ 0 :=
  ⟨rfl, C9_settlement_nonneg stWipe 1
      { value := 1000, open_price := 50000, close_price := 0, long := true } 10 0
      rfl rfl (by decide) (by decide) (by decide) (by decide) rfl⟩

end Perps
